import Mathlib

/-!
Verification of the gosim-project ingestion / summarization / hybrid-retrieval
core against its natural-language specification.

The Rust sources under src/ are shallowly embedded here:
pure computations become Lean functions, the external collaborators
(MySQL connection, OpenAI embedding endpoint, qdrant vector index, GraphQL
endpoint) become explicit oracle arguments, panics (`unwrap`, `expect`,
out-of-bounds indexing) become `Option` (`none` = panic), and fallible
paths become `Except`.  Similarity scores (f32 in the source, only ever
compared against the exact constants 0.75 / 0.79) are modelled as `ℚ`.
-/

/- ------------------------------------------------------------------ -/
/- Hybrid ranker: src/vector_search.rs, `search_collection_hybrid`    -/
/- ------------------------------------------------------------------ -/

/-- Model of a JSON value inside a vector point's payload: the code only
distinguishes string values (`as_str()` succeeds) from everything else. -/
inductive JVal where
  | str (s : String)
  | other
deriving DecidableEq

/-- `serde_json::Value::as_str` -/
def JVal.asStr : JVal → Option String
  | .str s => some s
  | .other => none

/-- A scored point returned by `search_points` (vector_search.rs:164):
a similarity score and an optional payload map. -/
structure ScoredPoint where
  score : ℚ
  payload : Option (List (String × JVal))
deriving DecidableEq

/-- vector_search.rs:166-182: extraction of the `"text"` and
`"issue_or_project_id"` payload fields through chained `unwrap`s;
`none` models the panic when the payload is absent, a key is missing,
or a value is not a string. -/
def pointFields (p : ScoredPoint) : Option (String × String) := do
  let pl ← p.payload
  let t ← (pl.lookup "text").bind JVal.asStr
  let i ← (pl.lookup "issue_or_project_id").bind JVal.asStr
  pure (t, i)

/-- One entry of `project_vec` / `issue_vec` (vector_search.rs:186-190):
the code stores `(Reverse(score), id, text)`; we keep the plain score and
encode the `Reverse` in the sort order below. -/
structure PoolEntry where
  score : ℚ
  id : String
  text : String
deriving DecidableEq

/-- Model of Rust `str::split(sep)` on a character separator: the list
of (possibly empty) segments between occurrences of `sep`.  The segment
count is the number of separators plus one, as in Rust. -/
def splitOnChar (sep : Char) : List Char → List (List Char)
  | [] => [[]]
  | c :: rest =>
    let r := splitOnChar sep rest
    if c = sep then [] :: r
    else
      match r with
      | [] => [[c]]
      | s :: ss => (c :: s) :: ss

/-- The similarity threshold 0.75 of vector_search.rs:185. -/
def scoreThreshold : ℚ := mkRat 3 4

/-- vector_search.rs:165-197: the candidate loop.  In iteration order each
point's fields are unwrapped (possible panic), the id is classified as
issue-shaped iff it has exactly 7 `/`-separated segments
(vector_search.rs:183), and entries scoring strictly above 0.75 are pushed
to the back of the issue or project pool. -/
def buildPools : List ScoredPoint → Option (List PoolEntry × List PoolEntry)
  | [] => some ([], [])
  | p :: ps =>
    match pointFields p with
    | none => none
    | some (t, i) =>
      match buildPools ps with
      | none => none
      | some (pv, iv) =>
        if scoreThreshold < p.score then
          if (splitOnChar '/' i.toList).length = 7 then
            some (pv, { score := p.score, id := i, text := t } :: iv)
          else some ({ score := p.score, id := i, text := t } :: pv, iv)
        else some (pv, iv)

/-- Insertion step of the sort at vector_search.rs:199-200: the code sorts
ascending by `Reverse(score)` with a stable sort, i.e. descending by score,
ties keeping their original relative order (`partial_cmp` never returns
`None` here because NaN scores cannot pass the `> 0.75` filter). -/
def insertDesc (e : PoolEntry) : List PoolEntry → List PoolEntry
  | [] => [e]
  | x :: xs => if x.score < e.score then e :: x :: xs else x :: insertDesc e xs

/-- vector_search.rs:199-200: stable sort by descending score. -/
def sortDesc (l : List PoolEntry) : List PoolEntry := l.foldr insertDesc []

/-- The loop of `extract_results` on the REVERSED vector: `Vec::pop`
takes the last element, which is the head of the reversed list.  Each
popped entry's `(id, text)` is pushed onto `results`; the loop stops
only AFTER a push once `results.len() >= count`, or when the vector is
exhausted. -/
def extractRev (count : Nat) :
    List PoolEntry → List (String × String) → List PoolEntry × List (String × String)
  | [], results => ([], results)
  | e :: rest, results =>
    let results2 := results ++ [(e.id, e.text)]
    if count ≤ results2.length then (rest, results2)
    else extractRev count rest results2

/-- vector_search.rs:206-217, `extract_results`: repeatedly `pop` the LAST
element of the sorted vector and push its `(id, text)` onto `results`
(see `extractRev`).  Returns the remaining vector and the results. -/
def extract_results (count : Nat) (vec : List PoolEntry)
    (results : List (String × String)) :
    List PoolEntry × List (String × String) :=
  let s := extractRev count vec.reverse results
  (s.1.reverse, s.2)

/-- vector_search.rs:199-231: sort both pools, then the three assembly
phases: (a) if the query wants projects drain the project pool;
(b) if it wants issues and fewer than 5 results so far drain the issue
pool; (c) if still fewer than 5, drain the remaining project pool and
then unconditionally call `extract_results` on the issue pool again. -/
def assembleHybrid (is_project is_issue : Bool)
    (project_vec issue_vec : List PoolEntry) : List (String × String) :=
  let pv0 := sortDesc project_vec
  let iv0 := sortDesc issue_vec
  let s1 := if is_project = true then extract_results 5 pv0 [] else (pv0, [])
  let s2 := if is_issue = true ∧ s1.2.length < 5 then extract_results 5 iv0 s1.2
            else (iv0, s1.2)
  if s2.2.length < 5 then
    let s3 := extract_results 5 s1.1 s2.2
    let s4 := extract_results 5 s2.1 s3.2
    s4.2
  else s2.2

/-- `char::to_ascii_lowercase` -/
def asciiLower (c : Char) : Char :=
  if 'A' ≤ c ∧ c ≤ 'Z' then Char.ofNat (c.toNat + 32) else c

/-- ASCII word character (regex `\w` restricted to ASCII; the embedded
queries in this development are ASCII, where the regex crate's Unicode
`\w` agrees with this predicate). -/
def isWordChar (c : Char) : Bool :=
  ('a' ≤ c && c ≤ 'z') || ('A' ≤ c && c ≤ 'Z') || ('0' ≤ c && c ≤ '9') || c = '_'

/-- Word boundary `\b` on the left of a match position. -/
def boundaryBefore : Option Char → Bool
  | none => true
  | some c => !isWordChar c

/-- Word boundary `\b` on the right of a match. -/
def boundaryAfter : List Char → Bool
  | [] => true
  | c :: _ => !isWordChar c

/-- Scan for a whole-word occurrence of `w`, tracking the previous
character for the left boundary test. -/
def containsWordFrom (w : List Char) : Option Char → List Char → Bool
  | _, [] => false
  | prev, c :: rest =>
    (boundaryBefore prev && w.isPrefixOf (c :: rest)
      && boundaryAfter ((c :: rest).drop w.length))
    || containsWordFrom w (some c) rest

/-- Model of `Regex::new(r"\bWORD\b").is_match(s)` (vector_search.rs:139-143). -/
def containsWord (w s : List Char) : Bool := containsWordFrom w none s

/-- vector_search.rs:132-233, `search_collection_hybrid`.  The OpenAI
embedding call and the vector-index search are oracles passed as
arguments.  Result `none` models a panic (the `.expect` on the search
call at line 164, or the `unwrap` chains on payload fields);
`some (.error _)` models an early `Err` return (embedding failure or
empty embedding list); `some (.ok rs)` is a normal return. -/
def search_collection_hybrid (question : String)
    (embed : Except String (List (List ℚ)))
    (searchRes : Except String (List ScoredPoint)) :
    Option (Except String (List (String × String))) :=
  let q := question.toList.map asciiLower
  let is_project := containsWord "project".toList q
  let is_issue := containsWord "issue".toList q
  match embed with
  | .ok (_v :: _vs) =>
    match searchRes with
    | .error _ => none
    | .ok points =>
      match buildPools points with
      | none => none
      | some pools => some (.ok (assembleHybrid is_project is_issue pools.1 pools.2))
  | _ => some (.error "Failed to get embeddings for the question")

/- ------------------------------------------------------------------ -/
/- Concrete candidate sets for the hybrid ranker                      -/
/- ------------------------------------------------------------------ -/

/-- A well-formed point whose payload carries both string fields. -/
def mkGoodPoint (sc : ℚ) (id txt : String) : ScoredPoint :=
  { score := sc, payload := some [("text", .str txt), ("issue_or_project_id", .str id)] }

/-- Candidates for the intent-less query: five project-shaped points
(ids with 5 `/`-separated segments) scoring 0.90 / 0.89 / 0.88 / 0.87 /
0.86 and one issue-shaped point (7 segments) scoring 0.80 — all above
the 0.75 threshold. -/
def sixOverflowCandidates : List ScoredPoint :=
  [ mkGoodPoint (mkRat 90 100) "https://github.com/o/p1" "t1"
  , mkGoodPoint (mkRat 89 100) "https://github.com/o/p2" "t2"
  , mkGoodPoint (mkRat 88 100) "https://github.com/o/p3" "t3"
  , mkGoodPoint (mkRat 87 100) "https://github.com/o/p4" "t4"
  , mkGoodPoint (mkRat 86 100) "https://github.com/o/p5" "t5"
  , mkGoodPoint (mkRat 80 100) "https://github.com/o/r/issues/9" "t6" ]

/-- What the code produces on `sixOverflowCandidates`: all five project
entries (lowest score first) and then one issue entry — six results. -/
def sixOverflowOutput : List (String × String) :=
  [ ("https://github.com/o/p5", "t5")
  , ("https://github.com/o/p4", "t4")
  , ("https://github.com/o/p3", "t3")
  , ("https://github.com/o/p2", "t2")
  , ("https://github.com/o/p1", "t1")
  , ("https://github.com/o/r/issues/9", "t6") ]

/-- C1: the hybrid search is claimed to return at most 5 results.  In
the third fallback phase the second `extract_results` call pops one
entry BEFORE re-checking the cap (vector_search.rs:211-216, 227-230),
so on the query "something broken" (no intent word) with five
project-pool survivors and one issue-pool survivor the code returns
SIX results.  This closed theorem evaluates the embedded code at that
failing input. -/
theorem hybrid_third_phase_emits_six_results :
    search_collection_hybrid "something broken" (.ok [[1]]) (.ok sixOverflowCandidates)
      = some (.ok sixOverflowOutput) ∧ sixOverflowOutput.length = 6 :=
  ⟨rfl, rfl⟩

/-- The spec's own intent-bias example (spec §8): six issue-shaped
candidates scoring 0.95 / 0.91 / 0.88 / 0.85 / 0.80 / 0.77 and six
project-shaped candidates all scoring 0.99. -/
def intentBiasCandidates : List ScoredPoint :=
  [ mkGoodPoint (mkRat 95 100) "https://github.com/o/r/issues/1" "i1"
  , mkGoodPoint (mkRat 91 100) "https://github.com/o/r/issues/2" "i2"
  , mkGoodPoint (mkRat 88 100) "https://github.com/o/r/issues/3" "i3"
  , mkGoodPoint (mkRat 85 100) "https://github.com/o/r/issues/4" "i4"
  , mkGoodPoint (mkRat 80 100) "https://github.com/o/r/issues/5" "i5"
  , mkGoodPoint (mkRat 77 100) "https://github.com/o/r/issues/6" "i6"
  , mkGoodPoint (mkRat 99 100) "https://github.com/o/pa" "p1"
  , mkGoodPoint (mkRat 99 100) "https://github.com/o/pb" "p2"
  , mkGoodPoint (mkRat 99 100) "https://github.com/o/pc" "p3"
  , mkGoodPoint (mkRat 99 100) "https://github.com/o/pd" "p4"
  , mkGoodPoint (mkRat 99 100) "https://github.com/o/pe" "p5"
  , mkGoodPoint (mkRat 99 100) "https://github.com/o/pf" "p6" ]

/-- What the code produces on `intentBiasCandidates` for the query
"open issue about crash": the five LOWEST-scoring issue entries in
ASCENDING score order (0.77, 0.80, 0.85, 0.88, 0.91). -/
def intentBiasOutput : List (String × String) :=
  [ ("https://github.com/o/r/issues/6", "i6")
  , ("https://github.com/o/r/issues/5", "i5")
  , ("https://github.com/o/r/issues/4", "i4")
  , ("https://github.com/o/r/issues/3", "i3")
  , ("https://github.com/o/r/issues/2", "i2") ]

/-- C2: the claim (and spec §8) says this query must return the top 5
issue-pool entries in descending score order.  The pools are sorted
descending (vector_search.rs:199-200) but `extract_results` pops from
the BACK of the vector (vector_search.rs:211), so the code returns the
five lowest-scoring issue entries in ascending order: the 0.95-scoring
entry `…/issues/1` is not in the output at all.  This closed theorem
evaluates the embedded code at the spec's own example input. -/
theorem hybrid_intent_bias_returns_bottom_five :
    search_collection_hybrid "open issue about crash" (.ok [[1]]) (.ok intentBiasCandidates)
      = some (.ok intentBiasOutput)
    ∧ ("https://github.com/o/r/issues/1", "i1") ∉ intentBiasOutput :=
  ⟨rfl, by decide⟩

/-- The candidate loop panics exactly when some point's payload fields
cannot be unwrapped. -/
theorem buildPools_eq_none_iff (pts : List ScoredPoint) :
    buildPools pts = none ↔ ∃ p ∈ pts, pointFields p = none := by
  induction pts with
  | nil => simp [buildPools]
  | cons p ps ih =>
    cases hp : pointFields p with
    | none =>
      simp only [buildPools, hp]
      exact iff_of_true trivial ⟨p, List.mem_cons_self p ps, hp⟩
    | some ti =>
      obtain ⟨t, i⟩ := ti
      cases hps : buildPools ps with
      | none =>
        simp only [buildPools, hp, hps]
        obtain ⟨q, hq, hf⟩ := ih.mp hps
        exact iff_of_true trivial ⟨q, List.mem_cons_of_mem p hq, hf⟩
      | some pools =>
        obtain ⟨pv, iv⟩ := pools
        simp only [buildPools, hp, hps]
        constructor
        · intro h
          exfalso
          revert h
          split <;> (try split) <;> simp
        · rintro ⟨q, hq, hf⟩
          rcases List.mem_cons.mp hq with rfl | hq2
          · rw [hp] at hf
            cases hf
          · have h0 : buildPools ps = none := ih.mpr ⟨q, hq2, hf⟩
            rw [h0] at hps
            cases hps

/-- C9: `search_collection_hybrid` is not total over its error channel.
Given that the query embedding succeeded with a non-empty vector list
(otherwise the function returns `Err` normally), the function panics —
rather than returning `Err` — exactly when the vector-index search call
fails (the `.expect` at vector_search.rs:164) or some returned point
lacks a payload or a string `"text"` / `"issue_or_project_id"` field
(the `unwrap` chains at vector_search.rs:166-182); and it returns
normally exactly when the search succeeded and every point carries both
string fields. -/
theorem search_collection_hybrid_totality (question : String)
    (embed : Except String (List (List ℚ)))
    (searchRes : Except String (List ScoredPoint)) :
    (search_collection_hybrid question embed searchRes = none ↔
      (∃ v vs, embed = .ok (v :: vs)) ∧
        ((∃ e, searchRes = .error e) ∨
          ∃ pts, searchRes = .ok pts ∧ ∃ p ∈ pts, pointFields p = none)) ∧
    ((∃ rs, search_collection_hybrid question embed searchRes = some (.ok rs)) ↔
      (∃ v vs, embed = .ok (v :: vs)) ∧
        ∃ pts, searchRes = .ok pts ∧ ∀ p ∈ pts, pointFields p ≠ none) := by
  match embed with
  | .error e => constructor <;> simp [search_collection_hybrid]
  | .ok [] => constructor <;> simp [search_collection_hybrid]
  | .ok (v :: vs) =>
    match searchRes with
    | .error e =>
      constructor
      · simp [search_collection_hybrid]
      · simp [search_collection_hybrid]
    | .ok pts =>
      cases hbp : buildPools pts with
      | none =>
        obtain ⟨q, hq, hf⟩ := (buildPools_eq_none_iff pts).mp hbp
        constructor
        · simp only [search_collection_hybrid, hbp]
          exact iff_of_true trivial ⟨⟨v, vs, rfl⟩, .inr ⟨pts, rfl, q, hq, hf⟩⟩
        · constructor
          · rintro ⟨rs, hrs⟩
            simp [search_collection_hybrid, hbp] at hrs
          · rintro ⟨-, pts2, hp2, hgood⟩
            cases hp2
            exact absurd hf (hgood q hq)
      | some pools =>
        have hnone : ¬∃ p ∈ pts, pointFields p = none := by
          rw [← buildPools_eq_none_iff]
          simp [hbp]
        constructor
        · simp only [search_collection_hybrid, hbp]
          constructor
          · intro h
            cases h
          · rintro ⟨-, (⟨e, he⟩ | ⟨pts2, hp2, hbad⟩)⟩
            · cases he
            · cases hp2
              exact absurd hbad hnone
        · constructor
          · intro _
            exact ⟨⟨v, vs, rfl⟩, pts, rfl, fun p hp hf => hnone ⟨p, hp, hf⟩⟩
          · intro _
            exact ⟨assembleHybrid
                (containsWord "project".toList (question.toList.map asciiLower))
                (containsWord "issue".toList (question.toList.map asciiLower))
                pools.1 pools.2,
              by simp [search_collection_hybrid, hbp]⟩

/- ------------------------------------------------------------------ -/
/- Summary generator: src/db_populate.rs,                             -/
/- `summarize_issue_add_in_db` / `summarize_project_add_in_db`        -/
/- ------------------------------------------------------------------ -/

/-- Rust `str::len()`: the UTF-8 byte length of a string. -/
def utf8Len (s : String) : Nat := (s.toList.map Char.utf8Size).sum

/-- Rust `.chars().take(n).collect::<String>()`. -/
def truncateChars (n : Nat) (s : String) : String := String.mk (s.toList.take n)

/-- An open issue as crawled (issue_tracker.rs:353-359). -/
structure IssueOpen where
  issue_title : String
  issue_id : String
  issue_description : String
  project_id : String
deriving DecidableEq

/-- Crawled repository data (issue_tracker.rs:102-108) extended with the
`main_language` field that db_populate.rs:468 reads from it (the field
is declared in a sibling file not present under src/). -/
structure RepoData where
  project_id : String
  repo_description : String
  repo_readme : String
  repo_stars : Int
  project_logo : String
  main_language : String
deriving DecidableEq

/-- Which of the two constant system prompts is passed to
`chat_inner_async`: the short-input variant (db_populate.rs:435-439 /
488-491) or the long-input variant (db_populate.rs:429-433 / 481-486). -/
inductive SummarizePrompt where
  | shortInput
  | longInput
deriving DecidableEq

/-- The request issued to the generation service: system prompt choice,
user text, and requested completion tokens. -/
structure ChatReq where
  system : SummarizePrompt
  userInput : String
  maxTokens : Nat
deriving DecidableEq

/-- `parts[3]` of the `/`-split entity id (db_populate.rs:426/462),
total under the no-panic guard of the callers. -/
def ownerOfId (id : String) : String :=
  String.mk ((splitOnChar '/' id.toList).getD 3 [])

/-- `parts[4]` of the `/`-split entity id (db_populate.rs:427/463). -/
def repoOfId (id : String) : String :=
  String.mk ((splitOnChar '/' id.toList).getD 4 [])

/-- The short-input user text of db_populate.rs:442-444. -/
def issueShortText (issue : IssueOpen) : String :=
  "Here is the input: `" ++ issue.issue_title ++ "` at repository `"
    ++ repoOfId issue.issue_id ++ "` by owner `" ++ ownerOfId issue.issue_id
    ++ "`, states: " ++ issue.issue_description

/-- The long-input user text of db_populate.rs:447-449 (before the
4000-character truncation). -/
def issueLongText (issue : IssueOpen) : String :=
  "Here is the input: The issue titled `" ++ issue.issue_title
    ++ "` at repository `" ++ repoOfId issue.issue_id ++ "` by owner `"
    ++ ownerOfId issue.issue_id ++ "`, states in the body text: "
    ++ issue.issue_description

/-- db_populate.rs:418-451, the request-construction part of
`summarize_issue_add_in_db`: split the issue id on `/` and index
segments 3 and 4 (`none` models the panic when the id has fewer than
five segments), then choose the prompt strategy on the BYTE length of
the issue description: short-input prompt with 180 tokens below 200
bytes, otherwise long-input prompt with 250 tokens on the text
truncated to its first 4000 characters. -/
def summarize_issue_request (issue : IssueOpen) : Option ChatReq :=
  if (splitOnChar '/' issue.issue_id.toList).length < 5 then none
  else some
    (if utf8Len issue.issue_description < 200 then
      { system := .shortInput, userInput := issueShortText issue, maxTokens := 180 }
    else
      { system := .longInput, userInput := truncateChars 4000 (issueLongText issue),
        maxTokens := 250 })

/-- `use_lang_str` of db_populate.rs:470-474. -/
def projectLangStr (rd : RepoData) : String :=
  if rd.main_language = "" then ""
  else "mainly uses `" ++ rd.main_language ++ "` in the project"

/-- `project_readme_str` of db_populate.rs:476-479. -/
def projectReadmeStr (rd : RepoData) : String :=
  if rd.repo_readme = "" then ""
  else "states in readme: " ++ rd.repo_readme

/-- The short-input user text of db_populate.rs:494-496. -/
def projectShortText (rd : RepoData) : String :=
  "Here is the input: The repository `" ++ repoOfId rd.project_id
    ++ "` by owner `" ++ ownerOfId rd.project_id ++ "` " ++ projectLangStr rd
    ++ ",`" ++ rd.repo_description ++ "`, " ++ projectReadmeStr rd

/-- The long-input user text of db_populate.rs:500-502 (before the
4000-character truncation; the doubled space after the repo name is in
the source). -/
def projectLongText (rd : RepoData) : String :=
  "Here is the input: The repository `" ++ repoOfId rd.project_id
    ++ "`  by owner `" ++ ownerOfId rd.project_id ++ "` " ++ projectLangStr rd
    ++ ", has a short text description: `" ++ rd.repo_description
    ++ "`, mentioned more details in readme: `" ++ rd.repo_readme ++ "`"

/-- db_populate.rs:460-505, the request-construction part of
`summarize_project_add_in_db`: split the project id on `/` and index
segments 3 and 4 (`none` models the panic on short ids), then branch on
the BYTE length of the README: short-input prompt with 180 tokens below
200 bytes, otherwise long-input prompt with 250 tokens on the truncated
text. -/
def summarize_project_request (rd : RepoData) : Option ChatReq :=
  if (splitOnChar '/' rd.project_id.toList).length < 5 then none
  else some
    (if utf8Len rd.repo_readme < 200 then
      { system := .shortInput, userInput := projectShortText rd, maxTokens := 180 }
    else
      { system := .longInput, userInput := truncateChars 4000 (projectLongText rd),
        maxTokens := 250 })

/-- C10: both summarizers panic exactly when the entity id has fewer
than five `/`-separated segments (the unconditional `parts[3]` /
`parts[4]` indexing), and are total under the five-segment
precondition. -/
theorem summarize_segment_panic (issue : IssueOpen) (rd : RepoData) :
    (summarize_issue_request issue = none ↔
      (splitOnChar '/' issue.issue_id.toList).length < 5) ∧
    (summarize_project_request rd = none ↔
      (splitOnChar '/' rd.project_id.toList).length < 5) := by
  constructor
  · simp only [summarize_issue_request]
    split
    · exact iff_of_true rfl (by assumption)
    · exact iff_of_false (by simp) (by assumption)
  · simp only [summarize_project_request]
    split
    · exact iff_of_true rfl (by assumption)
    · exact iff_of_false (by simp) (by assumption)

/-- An issue whose description is 100 copies of the two-byte character
é: 100 characters but 200 UTF-8 bytes. -/
def accentIssue : IssueOpen :=
  { issue_title := "t"
  , issue_id := "https://github.com/o/r/issues/1"
  , issue_description := String.mk (List.replicate 100 'é')
  , project_id := "https://github.com/o/r" }

/-- C3 counterexample: the claim keys the prompt choice on the number of
CHARACTERS in the body, but db_populate.rs:441/493 test `str::len()`,
which is the UTF-8 BYTE length.  `accentIssue`'s body is 100 characters
(< 200), yet the code takes the long-input branch with 250 tokens. -/
theorem summarize_threshold_is_bytes_not_chars :
    accentIssue.issue_description.length = 100 ∧
    accentIssue.issue_description.length < 200 ∧
    (summarize_issue_request accentIssue).map (fun r => (r.system, r.maxTokens))
      = some (SummarizePrompt.longInput, 250) :=
  ⟨rfl, by decide, rfl⟩

/-- C3 (amended): the prompt-strategy threshold is the UTF-8 byte length
of the primary text body.  Under the no-panic precondition (ids with at
least five `/`-separated segments): a body below 200 bytes selects the
short-input prompt with a 180-token completion request and the
untruncated short-format text; otherwise the long-input prompt is used
with a 250-token request and the text sent to the generator is
truncated to its first 4000 characters.  Holds for both the issue and
the project summarizer (the project's primary body is its README). -/
theorem summarize_prompt_selection (issue : IssueOpen) (rd : RepoData)
    (hi : 5 ≤ (splitOnChar '/' issue.issue_id.toList).length)
    (hr : 5 ≤ (splitOnChar '/' rd.project_id.toList).length) :
    (∃ r, summarize_issue_request issue = some r ∧
      ((utf8Len issue.issue_description < 200 ∧ r.system = .shortInput ∧
          r.maxTokens = 180 ∧ r.userInput = issueShortText issue) ∨
        (200 ≤ utf8Len issue.issue_description ∧ r.system = .longInput ∧
          r.maxTokens = 250 ∧ r.userInput = truncateChars 4000 (issueLongText issue)))) ∧
    (∃ r, summarize_project_request rd = some r ∧
      ((utf8Len rd.repo_readme < 200 ∧ r.system = .shortInput ∧
          r.maxTokens = 180 ∧ r.userInput = projectShortText rd) ∨
        (200 ≤ utf8Len rd.repo_readme ∧ r.system = .longInput ∧
          r.maxTokens = 250 ∧ r.userInput = truncateChars 4000 (projectLongText rd)))) := by
  constructor
  · simp only [summarize_issue_request, if_neg (by omega : ¬(splitOnChar '/' issue.issue_id.toList).length < 5)]
    by_cases h : utf8Len issue.issue_description < 200
    · exact ⟨_, by rw [if_pos h], .inl ⟨h, rfl, rfl, rfl⟩⟩
    · exact ⟨_, by rw [if_neg h], .inr ⟨by omega, rfl, rfl, rfl⟩⟩
  · simp only [summarize_project_request, if_neg (by omega : ¬(splitOnChar '/' rd.project_id.toList).length < 5)]
    by_cases h : utf8Len rd.repo_readme < 200
    · exact ⟨_, by rw [if_pos h], .inl ⟨h, rfl, rfl, rfl⟩⟩
    · exact ⟨_, by rw [if_neg h], .inr ⟨by omega, rfl, rfl, rfl⟩⟩

/-- A small ASCII issue used to witness `summarize_prompt_selection`. -/
def asciiIssue : IssueOpen :=
  { issue_title := "crash on start"
  , issue_id := "https://github.com/o/r/issues/2"
  , issue_description := "it crashes"
  , project_id := "https://github.com/o/r" }

/-- A small ASCII repository used to witness `summarize_prompt_selection`. -/
def asciiRepo : RepoData :=
  { project_id := "https://github.com/o/r"
  , repo_description := "a tool"
  , repo_readme := "readme text"
  , repo_stars := 1
  , project_logo := ""
  , main_language := "Rust" }

/-- Witness for `summarize_prompt_selection` at concrete inputs. -/
theorem summarize_prompt_selection_witness :
    (∃ r, summarize_issue_request asciiIssue = some r ∧
      ((utf8Len asciiIssue.issue_description < 200 ∧ r.system = .shortInput ∧
          r.maxTokens = 180 ∧ r.userInput = issueShortText asciiIssue) ∨
        (200 ≤ utf8Len asciiIssue.issue_description ∧ r.system = .longInput ∧
          r.maxTokens = 250 ∧ r.userInput = truncateChars 4000 (issueLongText asciiIssue)))) ∧
    (∃ r, summarize_project_request asciiRepo = some r ∧
      ((utf8Len asciiRepo.repo_readme < 200 ∧ r.system = .shortInput ∧
          r.maxTokens = 180 ∧ r.userInput = projectShortText asciiRepo) ∨
        (200 ≤ utf8Len asciiRepo.repo_readme ∧ r.system = .longInput ∧
          r.maxTokens = 250 ∧ r.userInput = truncateChars 4000 (projectLongText asciiRepo)))) :=
  summarize_prompt_selection asciiIssue asciiRepo (by decide) (by decide)

/- ------------------------------------------------------------------ -/
/- Entity store: src/db_populate.rs                                   -/
/- ------------------------------------------------------------------ -/

/-- A row of the `issues_repos_summarized` table: unique key
`issue_or_project_id`, summary text, keyword tags (stored by the code as
a JSON array string — the serialization is injective, so the tag list
itself is kept here), and the `indexed` flag (0/1 in SQL). -/
structure SummaryRow where
  issue_or_project_summary : String
  keyword_tags : List String
  indexed : Bool
deriving DecidableEq

/-- db_populate.rs:320-351, `add_or_update_summary_and_id`:
`INSERT ... ON DUPLICATE KEY UPDATE keyword_tags = :keyword_tags`.
If a row with the id exists, ONLY its `keyword_tags` column is updated;
otherwise a fresh row is inserted (the `indexed` column takes its
schema default 0). -/
def add_or_update_summary_and_id (table : List (String × SummaryRow))
    (issue_or_project_id issue_or_project_summary : String)
    (keyword_tags : List String) : List (String × SummaryRow) :=
  if (List.lookup issue_or_project_id table).isSome then
    table.map fun kr =>
      if kr.1 = issue_or_project_id then
        (kr.1, { kr.2 with keyword_tags := keyword_tags })
      else kr
  else
    table ++ [(issue_or_project_id,
      { issue_or_project_summary := issue_or_project_summary
      , keyword_tags := keyword_tags
      , indexed := false })]

/-- Updating only the `keyword_tags` of the row at `id` is invisible to
lookups at the matching key except for the tag change. -/
theorem lookup_tagUpdate_self (table : List (String × SummaryRow))
    (id : String) (tags : List String) (r : SummaryRow)
    (h : List.lookup id table = some r) :
    List.lookup id (table.map fun kr =>
        if kr.1 = id then (kr.1, { kr.2 with keyword_tags := tags }) else kr)
      = some { r with keyword_tags := tags } := by
  induction table with
  | nil => cases h
  | cons kv rest ih =>
    obtain ⟨k, v⟩ := kv
    by_cases hk : k = id
    · subst hk
      simp only [List.lookup_cons, beq_self_eq_true] at h
      cases h
      simp
    · have hbeq : (id == k) = false := beq_false_of_ne fun hh => hk hh.symm
      simp only [List.lookup_cons, hbeq] at h
      simp only [List.map_cons, if_neg hk, List.lookup_cons, hbeq]
      exact ih h

/-- The tag update at `id` leaves every other key's lookup unchanged. -/
theorem lookup_tagUpdate_other (table : List (String × SummaryRow))
    (id : String) (tags : List String) (id2 : String) (h2 : id2 ≠ id) :
    List.lookup id2 (table.map fun kr =>
        if kr.1 = id then (kr.1, { kr.2 with keyword_tags := tags }) else kr)
      = List.lookup id2 table := by
  induction table with
  | nil => rfl
  | cons kv rest ih =>
    obtain ⟨k, v⟩ := kv
    by_cases hk : k = id
    · subst hk
      have hbeq : (id2 == k) = false := beq_false_of_ne h2
      simp [List.lookup_cons, hbeq, ih]
    · simp only [List.map_cons, if_neg hk, List.lookup_cons]
      cases hbeq : id2 == k with
      | true => rfl
      | false => exact ih

/-- C4: re-running the summary write for an id that already has a row
overwrites only `keyword_tags`; the stored summary text, the `indexed`
flag, and every other row are unchanged. -/
theorem add_or_update_overwrites_only_tags (table : List (String × SummaryRow))
    (id new_summary : String) (new_tags : List String) (r : SummaryRow)
    (h : List.lookup id table = some r) :
    List.lookup id (add_or_update_summary_and_id table id new_summary new_tags)
      = some { issue_or_project_summary := r.issue_or_project_summary
             , keyword_tags := new_tags
             , indexed := r.indexed } ∧
    ∀ id2, id2 ≠ id →
      List.lookup id2 (add_or_update_summary_and_id table id new_summary new_tags)
        = List.lookup id2 table := by
  have hs : (List.lookup id table).isSome := by rw [h]; rfl
  rw [add_or_update_summary_and_id, if_pos hs]
  exact ⟨lookup_tagUpdate_self table id new_tags r h,
    fun id2 h2 => lookup_tagUpdate_other table id new_tags id2 h2⟩

/-- Witness for `add_or_update_overwrites_only_tags`: a two-row table;
the touched row keeps its summary and flag, the other row is untouched. -/
theorem add_or_update_overwrites_only_tags_witness :
    List.lookup "a" (add_or_update_summary_and_id
        [("a", ⟨"sumA", ["old"], true⟩), ("b", ⟨"sumB", ["kb"], false⟩)]
        "a" "newSum" ["new"])
      = some ⟨"sumA", ["new"], true⟩ ∧
    ∀ id2, id2 ≠ "a" →
      List.lookup id2 (add_or_update_summary_and_id
          [("a", ⟨"sumA", ["old"], true⟩), ("b", ⟨"sumB", ["kb"], false⟩)]
          "a" "newSum" ["new"])
        = List.lookup id2 [("a", ⟨"sumA", ["old"], true⟩), ("b", ⟨"sumB", ["kb"], false⟩)] :=
  add_or_update_overwrites_only_tags
    [("a", ⟨"sumA", ["old"], true⟩), ("b", ⟨"sumB", ["kb"], false⟩)]
    "a" "newSum" ["new"] ⟨"sumA", ["old"], true⟩ rfl

/-- A row of `issues_comment`, reconstructed from its use at
db_populate.rs:185-219 (the struct itself is declared in a sibling file
not present under src/). -/
structure IssueComment where
  issue_id : String
  comment_creator : String
  comment_date : String
  comment_body : String
deriving DecidableEq

/-- `mysql_async::Error` as far as db_populate.rs:208-213 inspects it:
a server error with a numeric code, or anything else. -/
inductive DBError where
  | server (code : Nat)
  | other
deriving DecidableEq

/-- db_populate.rs:185-219, `add_issues_comment`: the conditional
`INSERT ... WHERE NOT EXISTS` inserts the row only when no row with the
same `(issue_id, comment_date)` pair is present.  `execErr` is the
oracle outcome of the SQL round-trip: `none` means the statement
executed (with the conditional-insert semantics); `some e` means the
server reported error `e`, in which case server error code 23000
(duplicate key, e.g. from a concurrent-writer race) is swallowed and
turned into `Ok`, and anything else is propagated as `Err`. -/
def add_issues_comment (table : List IssueComment) (issue : IssueComment)
    (execErr : Option DBError) : List IssueComment × Except DBError Unit :=
  match execErr with
  | some (.server code) =>
    if code = 23000 then (table, .ok ()) else (table, .error (.server code))
  | some .other => (table, .error .other)
  | none =>
    if table.any fun r =>
        r.issue_id == issue.issue_id && r.comment_date == issue.comment_date then
      (table, .ok ())
    else (table ++ [issue], .ok ())

/-- C5: inserting two comments with the same `(issue_id, comment_date)`
pair into a table that does not yet contain that pair succeeds twice,
stores exactly one matching row, and leaves the table untouched by the
second insert; independently, a server error with code 23000 is
swallowed as `Ok` with no table change. -/
theorem add_issues_comment_dedup (table : List IssueComment)
    (c1 c2 : IssueComment)
    (hid : c2.issue_id = c1.issue_id) (hdate : c2.comment_date = c1.comment_date)
    (hfresh : ∀ r ∈ table,
      ¬(r.issue_id = c1.issue_id ∧ r.comment_date = c1.comment_date)) :
    (add_issues_comment table c1 none).2 = .ok () ∧
    (add_issues_comment (add_issues_comment table c1 none).1 c2 none).2 = .ok () ∧
    (add_issues_comment (add_issues_comment table c1 none).1 c2 none).1
      = (add_issues_comment table c1 none).1 ∧
    ((add_issues_comment (add_issues_comment table c1 none).1 c2 none).1.filter
        fun r => r.issue_id == c1.issue_id && r.comment_date == c1.comment_date).length
      = 1 ∧
    ∀ t c, add_issues_comment t c (some (.server 23000)) = (t, .ok ()) := by
  have hany1 : (table.any fun r =>
      r.issue_id == c1.issue_id && r.comment_date == c1.comment_date) = false := by
    rw [List.any_eq_false]
    intro r hr
    have := hfresh r hr
    simp only [Bool.and_eq_true, beq_iff_eq]
    exact this
  have h1 : add_issues_comment table c1 none = (table ++ [c1], .ok ()) := by
    simp [add_issues_comment, hany1]
  have hany2 : ((table ++ [c1]).any fun r =>
      r.issue_id == c2.issue_id && r.comment_date == c2.comment_date) = true := by
    rw [List.any_eq_true]
    exact ⟨c1, List.mem_append_right table (List.mem_singleton_self c1),
      by simp [hid, hdate]⟩
  have h2 : add_issues_comment (table ++ [c1]) c2 none = (table ++ [c1], .ok ()) := by
    simp [add_issues_comment, hany2]
  have hfilter : ((table ++ [c1]).filter
      fun r => r.issue_id == c1.issue_id && r.comment_date == c1.comment_date).length
      = 1 := by
    rw [List.filter_append]
    have hft : (table.filter
        fun r => r.issue_id == c1.issue_id && r.comment_date == c1.comment_date) = [] := by
      rw [List.filter_eq_nil_iff]
      intro r hr
      have := hfresh r hr
      simp only [Bool.and_eq_true, beq_iff_eq]
      exact this
    rw [hft]
    simp
  refine ⟨by rw [h1], ?_, ?_, ?_, fun t c => rfl⟩
  · rw [h1]
    rw [h2]
  · rw [h1]
    rw [h2]
  · rw [h1]
    rw [h2]
    exact hfilter

/-- Witness for `add_issues_comment_dedup` at concrete comments. -/
theorem add_issues_comment_dedup_witness :
    (add_issues_comment [] ⟨"i1", "alice", "2024-01-01", "hello"⟩ none).2 = .ok () ∧
    (add_issues_comment
        (add_issues_comment [] ⟨"i1", "alice", "2024-01-01", "hello"⟩ none).1
        ⟨"i1", "bob", "2024-01-01", "again"⟩ none).2 = .ok () ∧
    (add_issues_comment
        (add_issues_comment [] ⟨"i1", "alice", "2024-01-01", "hello"⟩ none).1
        ⟨"i1", "bob", "2024-01-01", "again"⟩ none).1
      = (add_issues_comment [] ⟨"i1", "alice", "2024-01-01", "hello"⟩ none).1 ∧
    ((add_issues_comment
        (add_issues_comment [] ⟨"i1", "alice", "2024-01-01", "hello"⟩ none).1
        ⟨"i1", "bob", "2024-01-01", "again"⟩ none).1.filter
      fun r => r.issue_id == "i1" && r.comment_date == "2024-01-01").length = 1 ∧
    ∀ t c, add_issues_comment t c (some (.server 23000)) = (t, .ok ()) :=
  add_issues_comment_dedup [] ⟨"i1", "alice", "2024-01-01", "hello"⟩
    ⟨"i1", "bob", "2024-01-01", "again"⟩ rfl rfl (by simp)

/-- A row of `issues_master` as read by db_populate.rs:397-416. -/
structure IssueMasterRow where
  issue_id : String
  issue_title : String
  issue_description : String
  issue_assignees : Option String
deriving DecidableEq

/-- db_populate.rs:397-416, `get_issues_from_db`:
`SELECT issue_id, issue_title, issue_description, issue_assignees FROM
issues_master WHERE issue_id not in (SELECT issue_or_project_id FROM
issues_repos_summarized) limit 50` — an anti-join on the summarized
table's key column (independent of the `indexed` flag), capped at 50
rows in table order. -/
def get_issues_from_db (issues_master : List IssueMasterRow)
    (summarized : List (String × SummaryRow)) :
    List (String × String × String × Option String) :=
  ((issues_master.filter fun i =>
      !((summarized.map Prod.fst).contains i.issue_id)).map fun i =>
    (i.issue_id, i.issue_title, i.issue_description, i.issue_assignees)).take 50

/-- C7: a selected candidate has no row AT ALL in the summarized table
(so a row with `indexed_flag = false` already excludes its entity); at
most 50 candidates are returned; and when the eligible set fits the
cap, every entity without a summarized row is selected. -/
theorem get_issues_from_db_antijoin (master : List IssueMasterRow)
    (summ : List (String × SummaryRow)) :
    (∀ x ∈ get_issues_from_db master summ, ∀ row : SummaryRow, (x.1, row) ∉ summ) ∧
    (get_issues_from_db master summ).length ≤ 50 ∧
    ((master.filter fun i => !((summ.map Prod.fst).contains i.issue_id)).length ≤ 50 →
      ∀ i ∈ master, (∀ row : SummaryRow, (i.issue_id, row) ∉ summ) →
        (i.issue_id, i.issue_title, i.issue_description, i.issue_assignees)
          ∈ get_issues_from_db master summ) := by
  refine ⟨?_, ?_, ?_⟩
  · intro x hx row hrow
    have hx2 := List.mem_of_mem_take hx
    obtain ⟨i, hi, hxeq⟩ := List.mem_map.mp hx2
    have hsel := (List.mem_filter.mp hi).2
    have hkey : x.1 = i.issue_id := by rw [← hxeq]
    rw [hkey] at hrow
    have hmem : i.issue_id ∈ summ.map Prod.fst :=
      List.mem_map.mpr ⟨(i.issue_id, row), hrow, rfl⟩
    simp [hmem] at hsel
  · exact List.length_take_le 50 _
  · intro hle i hi hnorow
    have hsel : (!((summ.map Prod.fst).contains i.issue_id)) = true := by
      simp only [Bool.not_eq_true']
      rw [Bool.eq_false_iff]
      intro hc
      have : i.issue_id ∈ summ.map Prod.fst := by simpa using hc
      obtain ⟨p, hp, hpk⟩ := List.mem_map.mp this
      apply hnorow p.2
      rw [← hpk]
      simpa using hp
    have hmem : (i.issue_id, i.issue_title, i.issue_description, i.issue_assignees)
        ∈ (master.filter fun i =>
            !((summ.map Prod.fst).contains i.issue_id)).map fun i =>
          (i.issue_id, i.issue_title, i.issue_description, i.issue_assignees) :=
      List.mem_map.mpr ⟨i, List.mem_filter.mpr ⟨hi, hsel⟩, rfl⟩
    have hlen : ((master.filter fun i =>
        !((summ.map Prod.fst).contains i.issue_id)).map fun i =>
          (i.issue_id, i.issue_title, i.issue_description, i.issue_assignees)).length ≤ 50 := by
      rw [List.length_map]
      exact hle
    rw [get_issues_from_db, List.take_of_length_le hlen]
    exact hmem

/-- Concrete master table for the C7 witness: one issue with no
summarized row and one whose row exists with `indexed = false`. -/
def witMaster : List IssueMasterRow :=
  [⟨"fresh", "tF", "dF", none⟩, ⟨"done", "tD", "dD", some "bob"⟩]

/-- Concrete summarized table for the C7 witness. -/
def witSumm : List (String × SummaryRow) := [("done", ⟨"sum", ["k"], false⟩)]

/-- Witness for `get_issues_from_db_antijoin`: one issue with no
summarized row (selected) and one whose row has `indexed = false`
(excluded). -/
theorem get_issues_from_db_antijoin_witness :
    (∀ x ∈ get_issues_from_db witMaster witSumm,
      ∀ row : SummaryRow, (x.1, row) ∉ witSumm) ∧
    (get_issues_from_db witMaster witSumm).length ≤ 50 ∧
    ((witMaster.filter fun i =>
        !((witSumm.map Prod.fst).contains i.issue_id)).length ≤ 50 →
      ∀ i ∈ witMaster,
        (∀ row : SummaryRow, (i.issue_id, row) ∉ witSumm) →
          (i.issue_id, i.issue_title, i.issue_description, i.issue_assignees)
            ∈ get_issues_from_db witMaster witSumm) :=
  get_issues_from_db_antijoin witMaster witSumm

/-- db_populate.rs:68-84, `project_exists`: `SELECT 1 FROM projects
WHERE project_id = ...`; a found row yields `Ok(true)`, an absent row
yields an `Err`, never `Ok(false)`. -/
def project_exists (projects : List String) (project_id : String) :
    Except String Bool :=
  if projects.contains project_id then .ok true else .error "Project not found"

/-- db_populate.rs:123-139, `issue_exists`: same shape over `issues`. -/
def issue_exists (issues : List String) (issue_id : String) :
    Except String Bool :=
  if issues.contains issue_id then .ok true else .error "Issue not found"

/-- db_populate.rs:141-157, `pull_request_exists`: same shape over
`pull_requests`. -/
def pull_request_exists (pulls : List String) (pull_id : String) :
    Except String Bool :=
  if pulls.contains pull_id then .ok true else .error "Pull request not found"

/-- C8: each existence check returns `Ok(true)` exactly when the record
is present and an error exactly when it is absent; `Ok(false)` is
unreachable, so at the result type absence is indistinguishable from an
I/O failure. -/
theorem exists_checks_conflate_absence (ids : List String) (id : String) :
    (project_exists ids id = .ok true ↔ id ∈ ids) ∧
    (project_exists ids id = .error "Project not found" ↔ id ∉ ids) ∧
    project_exists ids id ≠ .ok false ∧
    (issue_exists ids id = .ok true ↔ id ∈ ids) ∧
    (issue_exists ids id = .error "Issue not found" ↔ id ∉ ids) ∧
    issue_exists ids id ≠ .ok false ∧
    (pull_request_exists ids id = .ok true ↔ id ∈ ids) ∧
    (pull_request_exists ids id = .error "Pull request not found" ↔ id ∉ ids) ∧
    pull_request_exists ids id ≠ .ok false := by
  by_cases h : id ∈ ids <;>
    simp [project_exists, issue_exists, pull_request_exists, h]

/-- Witness for `exists_checks_conflate_absence` at a concrete store. -/
theorem exists_checks_conflate_absence_witness :
    (project_exists ["p"] "q" = .ok true ↔ "q" ∈ ["p"]) ∧
    (project_exists ["p"] "q" = .error "Project not found" ↔ "q" ∉ ["p"]) ∧
    project_exists ["p"] "q" ≠ .ok false ∧
    (issue_exists ["p"] "q" = .ok true ↔ "q" ∈ ["p"]) ∧
    (issue_exists ["p"] "q" = .error "Issue not found" ↔ "q" ∉ ["p"]) ∧
    issue_exists ["p"] "q" ≠ .ok false ∧
    (pull_request_exists ["p"] "q" = .ok true ↔ "q" ∈ ["p"]) ∧
    (pull_request_exists ["p"] "q" = .error "Pull request not found" ↔ "q" ∉ ["p"]) ∧
    pull_request_exists ["p"] "q" ≠ .ok false :=
  exists_checks_conflate_absence ["p"] "q"

/- ------------------------------------------------------------------ -/
/- Crawl cursor walker: src/issue_tracker.rs                          -/
/- ------------------------------------------------------------------ -/

/-- `pageInfo` of a search page (issue_tracker.rs:380-385). -/
structure PageInfo where
  endCursor : Option String
  hasNextPage : Bool
deriving DecidableEq

/-- `search` of a GraphQL response (issue_tracker.rs:372-378), with the
per-node type a parameter. -/
structure SearchPage (ν : Type) where
  nodes : Option (List ν)
  pageInfo : Option PageInfo

/-- `data` of a GraphQL response (issue_tracker.rs:367-370). -/
structure GQLData (ν : Type) where
  search : Option (SearchPage ν)

/-- A decoded GraphQL response (issue_tracker.rs:362-365). -/
structure GQLResponse (ν : Type) where
  data : Option (GQLData ν)

/-- The common pagination loop of `search_issues_open`
(issue_tracker.rs:400-478) and `search_issues_assigned`
(issue_tracker.rs:266-351): `for _ in 0..10`, each iteration posts one
page request (`fetch i cursor`, combining transport and JSON decoding;
an `Err` aborts the whole walk), appends the processed nodes
(`f` is the per-node accumulation of the loop body), and advances the
cursor when `hasNextPage` — breaking when `hasNextPage` is false and
merely continuing when any optional layer is absent.  The arguments
after `fetch` are: remaining iterations, pages fetched so far, current
cursor, and the accumulator; the result carries the accumulated items
and the total number of page fetches performed. -/
def searchWalkGo {ν ω : Type} (f : ν → List ω)
    (fetch : Nat → Option String → Except String (GQLResponse ν)) :
    Nat → Nat → Option String → List ω → Except String (List ω × Nat)
  | 0, fetched, _, acc => .ok (acc, fetched)
  | k + 1, fetched, cursor, acc =>
    match fetch fetched cursor with
    | .error e => .error e
    | .ok resp =>
      match resp.data with
      | none => searchWalkGo f fetch k (fetched + 1) cursor acc
      | some d =>
        match d.search with
        | none => searchWalkGo f fetch k (fetched + 1) cursor acc
        | some s =>
          let acc2 := match s.nodes with
            | none => acc
            | some nodes => acc ++ nodes.flatMap f
          match s.pageInfo with
          | none => searchWalkGo f fetch k (fetched + 1) cursor acc2
          | some pinfo =>
            if pinfo.hasNextPage then
              searchWalkGo f fetch k (fetched + 1) pinfo.endCursor acc2
            else .ok (acc2, fetched + 1)

/-- A crawl walk: 10 iterations starting from a null cursor and an
empty accumulator. -/
def searchWalk {ν ω : Type} (f : ν → List ω)
    (fetch : Nat → Option String → Except String (GQLResponse ν)) :
    Except String (List ω × Nat) :=
  searchWalkGo f fetch 10 0 none []

/-- Unrolling of the walk under an endpoint that always reports
`hasNextPage = true` with full pages: every iteration fetches and
accumulates, so `k` remaining iterations consume pages
`start, …, start + k - 1`. -/
theorem searchWalkGo_all_pages {ν ω : Type} (f : ν → List ω)
    (fetch : Nat → Option String → Except String (GQLResponse ν))
    (ns : Nat → List ν) (cur : Nat → Option String)
    (h : ∀ n c, fetch n c = .ok ⟨some ⟨some ⟨some (ns n), some ⟨cur n, true⟩⟩⟩⟩) :
    ∀ (k start : Nat) (cursor : Option String) (acc : List ω),
      searchWalkGo f fetch k start cursor acc
        = .ok (acc ++ ((List.range' start k).flatMap fun n => (ns n).flatMap f),
            start + k) := by
  intro k
  induction k with
  | zero =>
    intro start cursor acc
    simp [searchWalkGo, List.range']
  | succ k ih =>
    intro start cursor acc
    rw [searchWalkGo, h start cursor]
    simp only []
    rw [if_pos trivial]
    rw [ih (start + 1) (cur start) (acc ++ (ns start).flatMap f)]
    rw [List.range'_succ, List.flatMap_cons, ← List.append_assoc]
    congr 2
    omega

/-- C6: against an endpoint that always reports `hasNextPage = true`
(and always decodes), every crawl walk stops after exactly 10 page
fetches — it never issues an 11th request — and returns the
concatenation, in fetch order, of the processed nodes of those 10
pages. -/
theorem searchWalk_page_cap {ν ω : Type} (f : ν → List ω)
    (fetch : Nat → Option String → Except String (GQLResponse ν))
    (ns : Nat → List ν) (cur : Nat → Option String)
    (h : ∀ n c, fetch n c = .ok ⟨some ⟨some ⟨some (ns n), some ⟨cur n, true⟩⟩⟩⟩) :
    searchWalk f fetch
      = .ok (((List.range 10).flatMap fun n => (ns n).flatMap f), 10) := by
  rw [searchWalk, searchWalkGo_all_pages f fetch ns cur h 10 0 none [],
    List.range_eq_range']
  rfl

/-- issue_tracker.rs:450-455: `url.rsplitn(3, '/').nth(2)` — everything
before the last two `/`-separated segments — with the
`"wrong_project_id"` default when the url has fewer than two slashes
(drop the last two segments and re-join the rest on `/`). -/
def projectIdOfUrl (url : String) : String :=
  let parts := splitOnChar '/' url.toList
  if 3 ≤ parts.length then String.mk (List.intercalate ['/'] parts.dropLast.dropLast)
  else "wrong_project_id"

/-- The `author` sub-object of an issue node (issue_tracker.rs:395-398). -/
structure AuthorNode where
  login : Option String
deriving DecidableEq

/-- An issue node of `search_issues_open` (issue_tracker.rs:387-393). -/
structure IssueNode where
  title : String
  url : String
  body : Option String
  author : Option AuthorNode
deriving DecidableEq

/-- issue_tracker.rs:442-463: the loop body of `search_issues_open` —
description is the body (defaulted when absent) truncated to 240
characters; the project id is derived from the issue url. -/
def issueOpenOfNode (nd : IssueNode) : IssueOpen :=
  { issue_title := nd.title
  , issue_id := nd.url
  , issue_description := truncateChars 240 (nd.body.getD "")
  , project_id := projectIdOfUrl nd.url }

/-- issue_tracker.rs:361-478, `search_issues_open` as an instance of the
pagination loop. -/
def search_issues_open
    (fetch : Nat → Option String → Except String (GQLResponse IssueNode)) :
    Except String (List IssueOpen × Nat) :=
  searchWalk (fun nd => [issueOpenOfNode nd]) fetch

/-- The single node served by the mock endpoint of the C6 witness. -/
def witNode : IssueNode :=
  { title := "t"
  , url := "https://github.com/o/r/issues/5"
  , body := some "body"
  , author := some ⟨some "alice"⟩ }

/-- A mock endpoint that always reports `hasNextPage = true` and serves
`witNode` on every page. -/
def witFetch : Nat → Option String → Except String (GQLResponse IssueNode) :=
  fun _ _ => .ok ⟨some ⟨some ⟨some [witNode], some ⟨some "c", true⟩⟩⟩⟩

/-- Witness for `searchWalk_page_cap`: the open-issue crawl against the
mock endpoint performs exactly 10 fetches and accumulates the 10 pages. -/
theorem searchWalk_page_cap_witness :
    search_issues_open witFetch
      = .ok (((List.range 10).flatMap fun _ => [issueOpenOfNode witNode]), 10) :=
  searchWalk_page_cap (fun nd => [issueOpenOfNode nd]) witFetch
    (fun _ => [witNode]) (fun _ => some "c") (fun _ _ => rfl)

/-- Witness for `search_collection_hybrid_totality` at a concrete
failing search: with a good embedding and a failed index search the
call is characterized as a panic. -/
theorem search_collection_hybrid_totality_witness :
    (search_collection_hybrid "q" (.ok [[1]]) (.error "index down") = none ↔
      (∃ v vs, (Except.ok [[1]] : Except String (List (List ℚ))) = .ok (v :: vs)) ∧
        ((∃ e, (Except.error "index down" : Except String (List ScoredPoint)) = .error e) ∨
          ∃ pts, (Except.error "index down" : Except String (List ScoredPoint)) = .ok pts ∧
            ∃ p ∈ pts, pointFields p = none)) ∧
    ((∃ rs, search_collection_hybrid "q" (.ok [[1]]) (.error "index down")
        = some (.ok rs)) ↔
      (∃ v vs, (Except.ok [[1]] : Except String (List (List ℚ))) = .ok (v :: vs)) ∧
        ∃ pts, (Except.error "index down" : Except String (List ScoredPoint)) = .ok pts ∧
          ∀ p ∈ pts, pointFields p ≠ none) :=
  search_collection_hybrid_totality "q" (.ok [[1]]) (.error "index down")

/-- An issue whose id has a single `/`-free segment, for the C10 witness. -/
def shortIdIssue : IssueOpen :=
  { issue_title := "t", issue_id := "abc", issue_description := "d", project_id := "p" }

/-- A repo whose id has two segments, for the C10 witness. -/
def shortIdRepo : RepoData :=
  { project_id := "x/y", repo_description := "", repo_readme := ""
  , repo_stars := 0, project_logo := "", main_language := "" }

/-- Witness for `summarize_segment_panic` at concrete short ids: both
summarizers panic on them. -/
theorem summarize_segment_panic_witness :
    (summarize_issue_request shortIdIssue = none ↔
      (splitOnChar '/' shortIdIssue.issue_id.toList).length < 5) ∧
    (summarize_project_request shortIdRepo = none ↔
      (splitOnChar '/' shortIdRepo.project_id.toList).length < 5) :=
  summarize_segment_panic shortIdIssue shortIdRepo
